import Mathlib

/-!
Shallow embedding of the chat-assistant application in `work4.py`.

The program keeps a conversation log in `st.session_state['messages']` as a
list of `(role, content)` string pairs, an extracted document text in
`st.session_state['file_content']`, and a strict-mode flag.  The functions
below translate the pure decision logic of the source: credential
resolution (`get_api_key`), outbound message assembly and fallback handling
(`get_answer`), document extraction with temp-file cleanup (`load_file`),
and the state updates performed by the sidebar and the chat-input handler.
External effects (the OpenAI call, the temp file system, the document
loaders) are passed in as explicit outcomes: an `Except` value stands for
"the call returned normally / raised an exception with this message".
-/

/-- One outbound chat message, mirroring the dicts
`\x7b'role': ..., 'content': ...\x7d` built in `get_answer`. -/
structure Msg where
  role : String
  content : String
deriving Repr, DecidableEq

/-- The fixed fallback sentence returned by `get_answer` when the request
raises (line 89 of the source). -/
def fallbackReply : String := "暂时无法提供回复，请检查配置或稍后再试"

/-- The fixed refusal sentence the strict instruction tells the model to
answer with when the document has no relevant information. -/
def refusalSentence : String := "根据文件内容无法回答该问题"

/-- First literal line of the strict-mode instruction (line 74). -/
def strictHeader : String :=
  "请严格根据以下文件内容回答问题，如果文件内容中没有相关信息，请回答\x27根据文件内容无法回答该问题\x27:\n\n"

/-- The full strict-mode instruction assembled at lines 73-77: header,
then the document text, then the question. -/
def strictPrompt (file_content question : String) : String :=
  strictHeader ++ "文件内容:\n" ++ file_content ++ "\n\n" ++ "问题:" ++ question

/-- Projection of a stored turn into an outbound message (lines 64-68):
role `'ai'` maps to `"assistant"`, every other role to `"user"`. -/
def projectTurn (t : String × String) : Msg :=
  { role := if t.1 = "ai" then "assistant" else "user", content := t.2 }

/-- In-place update of the content of the last message of a list,
mirroring `messages[-1]['content'] = ...` (line 73); the role of the
updated message is preserved and an empty list is left unchanged. -/
def setLastContent : List Msg → String → List Msg
  | [], _ => []
  | [m], c => [{ role := m.role, content := c }]
  | m :: m2 :: rest, c => m :: setLastContent (m2 :: rest) c

/-- The outbound message list built by `get_answer` (lines 63-77) from the
current stored log `history` (which already ends with the pending user
turn), the question, the strict flag and the stored document text:
project every stored turn but the last, append a fresh user message with
the question, and if strict mode is on and the document text is truthy
(non-empty) overwrite the last message's content with the strict
instruction. -/
def get_answer_messages (history : List (String × String)) (question : String)
    (strict_file_mode : Bool) (file_content : String) : List Msg :=
  let messages := history.dropLast.foldl (fun acc t => acc ++ [projectTurn t]) []
  let messages := messages ++ [{ role := "user", content := question }]
  if strict_file_mode ∧ file_content ≠ "" then
    setLastContent messages (strictPrompt file_content question)
  else
    messages

/-- The user-facing error text shown when the try-block of `get_answer`
catches an exception `err` (line 88). -/
def apiErrorMsg (e : String) : String := "请求API时出错: " ++ e

/-- `get_answer` (lines 55-89): builds the outbound messages, hands them to
the chat-completion call (modelled by `api`, whose `.error` case stands for
any exception raised inside the try-block), and either returns the first
completion's text, or catches the exception, shows the error message and
returns the fixed fallback sentence.  Result: the reply text together with
the list of error messages displayed. -/
def get_answer (history : List (String × String)) (question : String)
    (strict_file_mode : Bool) (file_content : String)
    (api : List Msg → Except String String) : String × List String :=
  match api (get_answer_messages history question strict_file_mode file_content) with
  | .ok text => (text, [])
  | .error err => (fallbackReply, [apiErrorMsg err])

/-- The chat-input handler in `main` (lines 203-213): append the user turn
`('human', prompt)`, call `get_answer` on the updated log, and append the
assistant turn `('ai', response)`. -/
def handle_chat_input (msgs : List (String × String)) (prompt : String)
    (strict_file_mode : Bool) (file_content : String)
    (api : List Msg → Except String String) : List (String × String) :=
  let msgs1 := msgs ++ [("human", prompt)]
  let response := (get_answer msgs1 prompt strict_file_mode file_content api).1
  msgs1 ++ [("ai", response)]

/-- One send-question action: the typed prompt together with the session
flags and the external call outcome in effect when it is processed. -/
structure ChatAction where
  prompt : String
  strict_file_mode : Bool
  file_content : String
  api : List Msg → Except String String

/-- A sequence of send-question actions applied to a conversation log. -/
def run_actions (msgs : List (String × String)) (acts : List ChatAction) :
    List (String × String) :=
  acts.foldl
    (fun m a => handle_chat_input m a.prompt a.strict_file_mode a.file_content a.api)
    msgs

/-- Outcome of `get_api_key`: either a key string is returned, or the
error is displayed and the script is stopped (lines 34-38). -/
inductive KeyResult where
  | key (k : String)
  | halt (msg : String)
deriving Repr, DecidableEq

/-- The error text displayed when no key is found (lines 34-37; adjacent
Python string literals concatenate). -/
def missingKeyError : String :=
  "❌ 未检测到API密钥配置！请通过以下方式之一配置：\n1. 在Streamlit Secrets中添加（生产环境）\n2. 在项目根目录创建.env文件（开发环境）\n3. 直接设置系统环境变量"

/-- `get_api_key` (lines 13-39).  `secretsVal` is the Streamlit-secrets
entry for `OPENAI_API_KEY` (`none` when absent or secrets unavailable);
`envVal` is the process-environment value after `load_dotenv()` has merged
the `.env` file (`none` when unset).  The source returns the secrets value
whenever the entry is *present* (line 20-21, no emptiness check), else the
environment value when truthy (lines 26-27), else the final
`os.environ.get` read (line 32) which, when `None` or empty, displays the
error and stops (lines 33-38). -/
def get_api_key (secretsVal : Option String) (envVal : Option String) : KeyResult :=
  match secretsVal with
  | some k => .key k
  | none =>
    match envVal with
    | some k => if k = "" then .halt missingKeyError else .key k
    | none => .halt missingKeyError

/-- The characters after the last `'.'` of the list (the whole list when
no dot occurs), matching Python's `name.split('.')[-1]`. -/
def afterLastDot (l : List Char) : List Char :=
  l.foldl (fun acc c => if c = '.' then [] else acc ++ [c]) []

/-- The file type derived in `load_file` (line 95):
`uploaded_file.name.split('.')[-1].lower()`. -/
def fileTypeOf (fileName : String) : String :=
  ⟨(afterLastDot fileName.data).map Char.toLower⟩

/-- The user-facing error text shown by `load_file`'s except-branch
(line 119). -/
def loadErrMsg (e : String) : String := "文件加载失败: " ++ e

/-- What a call to `load_file` leaves behind: the returned string, the
error messages displayed, and whether the temporary file still exists on
disk when the call returns.  The function is total: no exception escapes
`load_file` in the source (every raise inside the try is caught at
line 118, and the unlink at line 124 is wrapped in its own
try/except-pass). -/
structure LoadResult where
  result : String
  errors : List String
  tmpExistsAfter : Bool
deriving Repr, DecidableEq

/-- `load_file` (lines 93-126).  External outcomes are explicit:
`createRes` is `NamedTemporaryFile(...)` (on `.error` the temp file was
never created), `writeRes` covers `uploaded_file.getvalue()` and
`tmp_file.write(...)` (on `.error` the file exists but `tmp_file_path`
was never assigned, since the assignment at line 103 follows the write),
`loaderRes` is `loader.load()` as the list of `page_content` segments,
and `unlinkOk` tells whether `os.unlink` succeeds in the finally block.
The finally block deletes the file only when `tmp_file_path` was assigned,
and swallows unlink errors. -/
def load_file (fileName : String) (createRes : Except String Unit)
    (writeRes : Except String Unit) (loaderRes : Except String (List String))
    (unlinkOk : Bool) : LoadResult :=
  let file_type := fileTypeOf fileName
  match createRes with
  | .error e => { result := "", errors := [loadErrMsg e], tmpExistsAfter := false }
  | .ok _ =>
    match writeRes with
    | .error e => { result := "", errors := [loadErrMsg e], tmpExistsAfter := true }
    | .ok _ =>
      if file_type = "txt" ∨ file_type = "pdf" ∨ file_type = "docx" then
        match loaderRes with
        | .ok docs =>
          { result := String.intercalate "\n\n" docs, errors := [],
            tmpExistsAfter := !unlinkOk }
        | .error e =>
          { result := "", errors := [loadErrMsg e], tmpExistsAfter := !unlinkOk }
      else
        { result := "不支持的文件类型", errors := [], tmpExistsAfter := !unlinkOk }

/-- The sidebar's document-state update (lines 163-165): the extraction
result replaces the stored document text only when it is truthy
(non-empty). -/
def sidebar_update_file_content (prior loadResult : String) : String :=
  if loadResult ≠ "" then loadResult else prior

/-- The seeded greeting log created by `init_session_state` (line 135). -/
def init_messages : List (String × String) :=
  [("🐯", "(ฅ´ω\x60ฅ)你好，我是你的AI助手晓生，为你解决所有问题")]

theorem foldl_append_eq_map (l : List (String × String)) (acc : List Msg) :
    l.foldl (fun acc t => acc ++ [projectTurn t]) acc = acc ++ l.map projectTurn := by
  induction l generalizing acc with
  | nil => simp
  | cons t l ih => simp [List.foldl_cons, ih]

theorem setLastContent_append (xs : List Msg) (m : Msg) (c : String) :
    setLastContent (xs ++ [m]) c = xs ++ [{ role := m.role, content := c }] := by
  induction xs with
  | nil => rfl
  | cons x xs ih =>
    cases xs with
    | nil => rfl
    | cons y ys =>
      show x :: setLastContent ((y :: ys) ++ [m]) c = _
      rw [ih]
      rfl

/-- Closed form of the outbound message list: the projected prior turns
followed by a single user message whose content is the strict instruction
exactly when strict mode is on and the document text is non-empty. -/
theorem get_answer_messages_eq (history : List (String × String)) (question : String)
    (strict_file_mode : Bool) (file_content : String) :
    get_answer_messages history question strict_file_mode file_content
      = history.dropLast.map projectTurn
        ++ [{ role := "user",
              content := if strict_file_mode ∧ file_content ≠ "" then
                  strictPrompt file_content question
                else question }] := by
  unfold get_answer_messages
  rw [foldl_append_eq_map]
  simp only [List.nil_append]
  by_cases h : (strict_file_mode : Prop) ∧ file_content ≠ ""
  · rw [if_pos h, if_pos h, setLastContent_append]
  · rw [if_neg h, if_neg h]

/-- C1: with `strictMode` true and a non-empty `documentText`, the
outbound request list is the unchanged projection of all prior turns
followed by the last (newest user) message whose content is replaced by
the constructed instruction, and that instruction contains the full
document text verbatim, the literal question, and the fixed refusal
directive `根据文件内容无法回答该问题`. -/
theorem C1_strict_replacement (history : List (String × String))
    (question docText : String) (hne : docText ≠ "") :
    get_answer_messages history question true docText
      = history.dropLast.map projectTurn
        ++ [{ role := "user", content := strictPrompt docText question }]
    ∧ (∃ p s, strictPrompt docText question = p ++ docText ++ s)
    ∧ (∃ p s, strictPrompt docText question = p ++ question ++ s)
    ∧ (∃ p s, strictPrompt docText question = p ++ refusalSentence ++ s) := by
  refine ⟨?_, ?_, ?_, ?_⟩
  · rw [get_answer_messages_eq]
    simp [hne]
  · refine ⟨strictHeader ++ "文件内容:\n", "\n\n" ++ "问题:" ++ question, ?_⟩
    simp [strictPrompt, String.append_assoc]
  · refine ⟨strictHeader ++ "文件内容:\n" ++ docText ++ "\n\n" ++ "问题:", "", ?_⟩
    rw [String.append_empty]
    rfl
  · refine ⟨"请严格根据以下文件内容回答问题，如果文件内容中没有相关信息，请回答\x27",
      "\x27:\n\n" ++ ("文件内容:\n" ++ docText ++ "\n\n" ++ "问题:" ++ question), ?_⟩
    have h : strictHeader
        = "请严格根据以下文件内容回答问题，如果文件内容中没有相关信息，请回答\x27"
          ++ refusalSentence ++ "\x27:\n\n" := by decide
    rw [strictPrompt, h]
    simp only [String.append_assoc]

/-- Witness for C1 at a concrete conversation, question and document. -/
theorem C1_strict_replacement_witness :
    ("巴黎是法国的首都。" : String) ≠ ""
    ∧ (get_answer_messages [("🐯", "hi"), ("human", "德国的首都是什么?")]
          "德国的首都是什么?" true "巴黎是法国的首都。"
        = [("🐯", "hi"), ("human", "德国的首都是什么?")].dropLast.map projectTurn
          ++ [{ role := "user",
                content := strictPrompt "巴黎是法国的首都。" "德国的首都是什么?" }]
      ∧ (∃ p s, strictPrompt "巴黎是法国的首都。" "德国的首都是什么?"
            = p ++ "巴黎是法国的首都。" ++ s)
      ∧ (∃ p s, strictPrompt "巴黎是法国的首都。" "德国的首都是什么?"
            = p ++ "德国的首都是什么?" ++ s)
      ∧ (∃ p s, strictPrompt "巴黎是法国的首都。" "德国的首都是什么?"
            = p ++ refusalSentence ++ s)) :=
  ⟨by decide,
    C1_strict_replacement [("🐯", "hi"), ("human", "德国的首都是什么?")]
      "德国的首都是什么?" "巴黎是法国的首都。" (by decide)⟩

/-- C4 counterexample: starting from the seeded greeting with strict mode
on and no document loaded, the last outbound message content is the plain
question, not the constructed strict instruction — the truthiness test at
line 72 skips the replacement when `file_content` is empty. -/
theorem C4_counterexample :
    (get_answer_messages (init_messages ++ [("human", "q")]) "q" true "").getLast?
      = some { role := "user", content := "q" }
    ∧ ("q" : String) ≠ strictPrompt "" "q" := by
  refine ⟨by decide, by decide⟩

/-- C4 amended: when strict mode is on but `documentText` is empty, the
replacement is skipped and the plain question is sent as the last message
content. -/
theorem C4_strict_empty_doc (history : List (String × String)) (question : String) :
    get_answer_messages history question true ""
      = history.dropLast.map projectTurn
        ++ [{ role := "user", content := question }] := by
  rw [get_answer_messages_eq]
  simp

/-- C6: the outbound list projects every stored turn except the most
recent pending one — role `'ai'` to `"assistant"`, every other role
(including the seeded greeting's) to `"user"` — and appends one fresh user
message; when the stored log holds only the pending turn the request is a
single message. -/
theorem C6_projection_shape (history : List (String × String))
    (question file_content : String) (strict_file_mode : Bool) :
    get_answer_messages history question false file_content
      = history.dropLast.map projectTurn ++ [{ role := "user", content := question }]
    ∧ (∀ t : String × String,
        projectTurn t
          = { role := if t.1 = "ai" then "assistant" else "user", content := t.2 })
    ∧ (∃ c, get_answer_messages history question strict_file_mode file_content
          = history.dropLast.map projectTurn ++ [{ role := "user", content := c }])
    ∧ (get_answer_messages history question strict_file_mode file_content).length
        = history.dropLast.length + 1
    ∧ (∀ t0 : String × String,
        (get_answer_messages [t0] question strict_file_mode file_content).length = 1) := by
  refine ⟨?_, fun t => rfl, ?_, ?_, ?_⟩
  · rw [get_answer_messages_eq]
    simp
  · exact ⟨_, get_answer_messages_eq history question strict_file_mode file_content⟩
  · rw [get_answer_messages_eq]
    simp
  · intro t0
    rw [get_answer_messages_eq]
    simp

/-- C2: when the chat-completion call raises, `get_answer` catches the
exception, displays a user-facing error message, and returns the fixed
fallback sentence; the chat handler then appends exactly one assistant
turn carrying that fallback text after the user turn, so the conversation
is never left without an assistant turn and nothing propagates. -/
theorem C2_api_failure_fallback (history msgs : List (String × String))
    (question prompt : String) (strict_file_mode : Bool) (file_content : String)
    (api : List Msg → Except String String) (e : String)
    (hfail : ∀ m, api m = .error e) :
    get_answer history question strict_file_mode file_content api
      = (fallbackReply, [apiErrorMsg e])
    ∧ handle_chat_input msgs prompt strict_file_mode file_content api
      = msgs ++ [("human", prompt), ("ai", fallbackReply)] := by
  constructor
  · unfold get_answer
    rw [hfail]
  · unfold handle_chat_input get_answer
    simp [hfail]

/-- Witness for C2 with an always-raising call. -/
theorem C2_api_failure_fallback_witness :
    (∀ m : List Msg,
        (fun _ : List Msg => (Except.error "boom" : Except String String)) m
          = .error "boom")
    ∧ (get_answer [("human", "q")] "q" false ""
          (fun _ => .error "boom")
        = (fallbackReply, [apiErrorMsg "boom"])
      ∧ handle_chat_input [] "q" false "" (fun _ => .error "boom")
        = [] ++ [("human", "q"), ("ai", fallbackReply)]) :=
  ⟨fun _ => rfl,
    C2_api_failure_fallback [("human", "q")] [] "q" "q" false ""
      (fun _ => .error "boom") "boom" (fun _ => rfl)⟩

/-- C3: each send-question action appends exactly two turns — first the
user turn with the question, then the assistant turn with the (real or
fallback) reply — and over any sequence of such actions the prior turns
are preserved unchanged, in order, while the log grows by exactly two per
action. -/
theorem C3_two_turns_per_action (msgs : List (String × String)) (a : ChatAction)
    (acts : List ChatAction) :
    (∃ r, handle_chat_input msgs a.prompt a.strict_file_mode a.file_content a.api
        = msgs ++ [("human", a.prompt), ("ai", r)])
    ∧ (∃ rest, run_actions msgs acts = msgs ++ rest
        ∧ rest.length = 2 * acts.length) := by
  constructor
  · refine ⟨(get_answer (msgs ++ [("human", a.prompt)]) a.prompt
      a.strict_file_mode a.file_content a.api).1, ?_⟩
    unfold handle_chat_input
    simp
  · induction acts generalizing msgs with
    | nil => exact ⟨[], by simp [run_actions]⟩
    | cons a acts ih =>
      have hstep : run_actions msgs (a :: acts)
          = run_actions
              (msgs ++ [("human", a.prompt),
                ("ai", (get_answer (msgs ++ [("human", a.prompt)]) a.prompt
                  a.strict_file_mode a.file_content a.api).1)]) acts := by
        unfold run_actions handle_chat_input
        simp
      obtain ⟨rest, hr, hl⟩ := ih (msgs ++ [("human", a.prompt),
        ("ai", (get_answer (msgs ++ [("human", a.prompt)]) a.prompt
          a.strict_file_mode a.file_content a.api).1)])
      refine ⟨[("human", a.prompt),
        ("ai", (get_answer (msgs ++ [("human", a.prompt)]) a.prompt
          a.strict_file_mode a.file_content a.api).1)] ++ rest, ?_, ?_⟩
      · rw [hstep, hr, List.append_assoc]
      · simp only [List.length_append, List.length_cons, List.length_nil, hl]
        omega

theorem sidebar_update_of_ne_empty (prior r : String) (h : r ≠ "") :
    sidebar_update_file_content prior r = r := by
  simp [sidebar_update_file_content, h]

theorem sidebar_update_empty (prior : String) :
    sidebar_update_file_content prior "" = prior := by
  simp [sidebar_update_file_content]

theorem load_file_unsupported (fileName : String) (lr : Except String (List String))
    (u : Bool)
    (hext : ¬(fileTypeOf fileName = "txt" ∨ fileTypeOf fileName = "pdf"
        ∨ fileTypeOf fileName = "docx")) :
    load_file fileName (.ok ()) (.ok ()) lr u
      = { result := "不支持的文件类型", errors := [], tmpExistsAfter := !u } := by
  unfold load_file
  simp [hext]

theorem load_file_loader_raises (fileName e : String) (u : Bool)
    (hext : fileTypeOf fileName = "txt" ∨ fileTypeOf fileName = "pdf"
      ∨ fileTypeOf fileName = "docx") :
    load_file fileName (.ok ()) (.ok ()) (.error e) u
      = { result := "", errors := [loadErrMsg e], tmpExistsAfter := !u } := by
  unfold load_file
  simp [hext]

theorem load_file_loader_ok (fileName : String) (docs : List String) (u : Bool)
    (hext : fileTypeOf fileName = "txt" ∨ fileTypeOf fileName = "pdf"
      ∨ fileTypeOf fileName = "docx") :
    load_file fileName (.ok ()) (.ok ()) (.ok docs) u
      = { result := String.intercalate "\n\n" docs, errors := [],
          tmpExistsAfter := !u } := by
  unfold load_file
  simp [hext]

/-- C5 counterexample: a `.csv` upload makes `load_file` return the
non-empty message string `不支持的文件类型`; the sidebar's truthiness check
then stores that message as the document text, overwriting the previously
stored document — the unsupported-type result IS stored. -/
theorem C5_counterexample :
    (load_file "data.csv" (.ok ()) (.ok ()) (.ok ["ignored"]) true).result
      = "不支持的文件类型"
    ∧ sidebar_update_file_content "old document"
        (load_file "data.csv" (.ok ()) (.ok ()) (.ok ["ignored"]) true).result
      = "不支持的文件类型"
    ∧ ("不支持的文件类型" : String) ≠ "old document" := by
  refine ⟨by decide, by decide, by decide⟩

/-- C5 amended: on an unrecognized extension `load_file` returns the fixed
message `不支持的文件类型` (no error display); because the caller stores any
non-empty result, that message replaces the previously stored document
text rather than leaving it untouched. -/
theorem C5_unsupported_stores_message (fileName prior : String)
    (lr : Except String (List String)) (u : Bool)
    (hext : ¬(fileTypeOf fileName = "txt" ∨ fileTypeOf fileName = "pdf"
        ∨ fileTypeOf fileName = "docx")) :
    (load_file fileName (.ok ()) (.ok ()) lr u).result = "不支持的文件类型"
    ∧ (load_file fileName (.ok ()) (.ok ()) lr u).errors = []
    ∧ sidebar_update_file_content prior
        (load_file fileName (.ok ()) (.ok ()) lr u).result
      = "不支持的文件类型" := by
  rw [load_file_unsupported fileName lr u hext]
  exact ⟨rfl, rfl, sidebar_update_of_ne_empty prior "不支持的文件类型" (by decide)⟩

/-- Witness for C5's amended statement at a concrete `.csv` upload. -/
theorem C5_unsupported_stores_message_witness :
    ¬(fileTypeOf "data.csv" = "txt" ∨ fileTypeOf "data.csv" = "pdf"
        ∨ fileTypeOf "data.csv" = "docx")
    ∧ ((load_file "data.csv" (.ok ()) (.ok ()) (.error "e") false).result
        = "不支持的文件类型"
      ∧ (load_file "data.csv" (.ok ()) (.ok ()) (.error "e") false).errors = []
      ∧ sidebar_update_file_content "old document"
          (load_file "data.csv" (.ok ()) (.ok ()) (.error "e") false).result
        = "不支持的文件类型") :=
  ⟨by decide,
    C5_unsupported_stores_message "data.csv" "old document" (.error "e") false
      (by decide)⟩

/-- C7 counterexample: when writing the uploaded bytes raises, the temp
file was created but `tmp_file_path` was never assigned (the assignment
follows the write), so the finally block skips deletion: `load_file`
returns normally with the error displayed, yet the temporary file still
exists on disk. -/
theorem C7_counterexample :
    (load_file "a.txt" (.ok ()) (.error "disk full") (.ok ["x"]) true).tmpExistsAfter
      = true
    ∧ (load_file "a.txt" (.ok ()) (.error "disk full") (.ok ["x"]) true).result = ""
    ∧ (load_file "a.txt" (.ok ()) (.error "disk full") (.ok ["x"]) true).errors
      = [loadErrMsg "disk full"] := by
  refine ⟨by decide, by decide, by decide⟩

/-- C7 amended: on every exit path on which the temporary path was
recorded (creation and write both completed), deletion is attempted with
errors swallowed, so the file remains exactly when the unlink fails; when
creation itself raises no file exists; when the write raises the path was
never recorded and the file is left on disk. -/
theorem C7_tmp_cleanup (fileName e : String) (lr : Except String (List String))
    (u : Bool) :
    (load_file fileName (.ok ()) (.ok ()) lr u).tmpExistsAfter = !u
    ∧ (load_file fileName (.error e) (.ok ()) lr u).tmpExistsAfter = false
    ∧ (load_file fileName (.ok ()) (.error e) lr u).tmpExistsAfter = true := by
  refine ⟨?_, rfl, rfl⟩
  by_cases hext : fileTypeOf fileName = "txt" ∨ fileTypeOf fileName = "pdf"
      ∨ fileTypeOf fileName = "docx"
  · cases lr with
    | ok docs => rw [load_file_loader_ok fileName docs u hext]
    | error e2 => rw [load_file_loader_raises fileName e2 u hext]
  · rw [load_file_unsupported fileName lr u hext]

/-- C8 counterexample: with an empty string stored under the key in the
managed-secrets store and a valid key in the environment, `get_api_key`
returns the empty secrets value — presence, not non-emptiness, decides the
first source, so the resolver neither falls through to the non-empty
environment value nor fails with the missing-credential halt. -/
theorem C8_counterexample :
    get_api_key (some "") (some "sk-valid") = .key ""
    ∧ KeyResult.key "" ≠ .key "sk-valid"
    ∧ KeyResult.key "" ≠ .halt missingKeyError := by
  refine ⟨rfl, by decide, by decide⟩

/-- C8 amended: the secrets-store value wins whenever the entry is present
(even empty); otherwise the post-dotenv process environment value is
returned when non-empty; otherwise the resolver shows the fixed error and
halts, so apart from an empty secrets entry no empty key is ever
returned. -/
theorem C8_key_precedence (v s : String) (envVal : Option String) :
    get_api_key (some v) envVal = .key v
    ∧ (s ≠ "" → get_api_key none (some s) = .key s)
    ∧ get_api_key none (some "") = .halt missingKeyError
    ∧ get_api_key none none = .halt missingKeyError := by
  refine ⟨rfl, fun h => ?_, rfl, rfl⟩
  simp [get_api_key, h]

/-- Witness for C8's amended statement: a non-empty environment value is
returned when no secrets entry exists. -/
theorem C8_key_precedence_witness :
    ("beta" : String) ≠ "" ∧ get_api_key none (some "beta") = .key "beta" :=
  ⟨by decide, (C8_key_precedence "alpha" "beta" (some "beta")).2.1 (by decide)⟩

/-- C9: when the format-specific loader raises, `load_file` catches the
exception, displays the failure message carrying the underlying error
text, returns the empty string, and the sidebar's update leaves the
previously stored document text unchanged. -/
theorem C9_loader_error_keeps_doc (fileName prior e : String) (u : Bool)
    (hext : fileTypeOf fileName = "txt" ∨ fileTypeOf fileName = "pdf"
      ∨ fileTypeOf fileName = "docx") :
    (load_file fileName (.ok ()) (.ok ()) (.error e) u).result = ""
    ∧ (load_file fileName (.ok ()) (.ok ()) (.error e) u).errors = [loadErrMsg e]
    ∧ sidebar_update_file_content prior
        (load_file fileName (.ok ()) (.ok ()) (.error e) u).result = prior := by
  rw [load_file_loader_raises fileName e u hext]
  exact ⟨rfl, rfl, sidebar_update_empty prior⟩

/-- Witness for C9 at a concrete `.txt` upload whose loader raises. -/
theorem C9_loader_error_keeps_doc_witness :
    (fileTypeOf "a.txt" = "txt" ∨ fileTypeOf "a.txt" = "pdf"
      ∨ fileTypeOf "a.txt" = "docx")
    ∧ ((load_file "a.txt" (.ok ()) (.ok ()) (.error "boom") true).result = ""
      ∧ (load_file "a.txt" (.ok ()) (.ok ()) (.error "boom") true).errors
        = [loadErrMsg "boom"]
      ∧ sidebar_update_file_content "prev doc"
          (load_file "a.txt" (.ok ()) (.ok ()) (.error "boom") true).result
        = "prev doc") :=
  ⟨by decide,
    C9_loader_error_keeps_doc "a.txt" "prev doc" "boom" true (by decide)⟩

/-- C10: a loader exception and a successful extraction whose segments
join to the empty string both make `load_file` return `""`; the caller
updates the stored document text only on a non-empty result, so an upload
whose extraction legitimately yields empty text never updates the stored
document and is indistinguishable from a load failure by return value. -/
theorem C10_empty_extraction_indistinguishable (fileName prior e : String)
    (u : Bool) (segs : List String)
    (hext : fileTypeOf fileName = "txt" ∨ fileTypeOf fileName = "pdf"
      ∨ fileTypeOf fileName = "docx")
    (hempty : String.intercalate "\n\n" segs = "") :
    (load_file fileName (.ok ()) (.ok ()) (.ok segs) u).result = ""
    ∧ (load_file fileName (.ok ()) (.ok ()) (.error e) u).result = ""
    ∧ (load_file fileName (.ok ()) (.ok ()) (.ok segs) u).result
        = (load_file fileName (.ok ()) (.ok ()) (.error e) u).result
    ∧ sidebar_update_file_content prior "" = prior
    ∧ sidebar_update_file_content prior
        (load_file fileName (.ok ()) (.ok ()) (.ok segs) u).result = prior := by
  rw [load_file_loader_ok fileName segs u hext,
    load_file_loader_raises fileName e u hext]
  exact ⟨hempty, rfl, hempty, sidebar_update_empty prior,
    by rw [hempty]; exact sidebar_update_empty prior⟩

/-- Witness for C10 at an empty `.txt` upload (one empty text segment). -/
theorem C10_empty_extraction_indistinguishable_witness :
    ((fileTypeOf "empty.txt" = "txt" ∨ fileTypeOf "empty.txt" = "pdf"
        ∨ fileTypeOf "empty.txt" = "docx")
      ∧ String.intercalate "\n\n" [""] = "")
    ∧ ((load_file "empty.txt" (.ok ()) (.ok ()) (.ok [""]) true).result = ""
      ∧ (load_file "empty.txt" (.ok ()) (.ok ()) (.error "boom") true).result = ""
      ∧ (load_file "empty.txt" (.ok ()) (.ok ()) (.ok [""]) true).result
          = (load_file "empty.txt" (.ok ()) (.ok ()) (.error "boom") true).result
      ∧ sidebar_update_file_content "prev doc" "" = "prev doc"
      ∧ sidebar_update_file_content "prev doc"
          (load_file "empty.txt" (.ok ()) (.ok ()) (.ok [""]) true).result
        = "prev doc") :=
  ⟨⟨by decide, by decide⟩,
    C10_empty_extraction_indistinguishable "empty.txt" "prev doc" "boom" true [""]
      (by decide) (by decide)⟩
